import Mathlib

/-!
Verification of the CAMBRION invoice-parser service.

The embedding translates the request-handling pipeline of `app/main.py`
(`parse_invoice`), the data model of `app/models.py` (`LineItem`,
`InvoiceData`) and the text extractors of `app/utils.py` (`pdf_to_text`,
`invoice_data_extraction`) into Lean.  External collaborators that the code
merely calls (the `json.loads` decoder, pydantic's lax string-to-float
coercion, the OpenAI vision endpoint, the DSPy structured extractor and the
pypdf page reader) are modelled as oracle parameters: the theorems quantify
over their outcomes, which is exactly the set of behaviours the handler can
observe.
-/

namespace InvoiceParser

/-- JSON values, as `json.loads` can produce them.  Numbers are modelled as
rationals (Python floats/ints carry no further structure that the handler
inspects). -/
inductive JsonValue where
  | jnull : JsonValue
  | jbool (b : Bool) : JsonValue
  | jnum (q : ℚ) : JsonValue
  | jstr (s : String) : JsonValue
  | jarr (elems : List JsonValue) : JsonValue
  | jobj (fields : List (String × JsonValue)) : JsonValue

/-- `app/models.py`, `LineItem`: description, quantity, unit_price, total. -/
structure LineItem where
  description : String
  quantity : ℚ
  unit_price : ℚ
  total : ℚ
deriving Repr, DecidableEq

/-- `app/models.py`, `InvoiceData`: the six response fields. -/
structure InvoiceData where
  invoice_number : String
  date : String
  vendor_name : String
  total_amount : ℚ
  currency : String
  line_items : List LineItem
deriving Repr, DecidableEq

/-- The Python value held by `result.line_items` coming back from the DSPy
call: `None`, a string (the declared type), or some other structured value
(the code's `else` branch of the `isinstance(result.line_items, str)` test). -/
inductive LineItemsValue where
  | pyNone : LineItemsValue
  | str (s : String) : LineItemsValue
  | val (v : JsonValue) : LineItemsValue

/-- The typed fields of the DSPy `Prediction` as declared by the
`InvoiceExtraction` signature in `app/dspy_parser.py`. -/
structure RawResult where
  invoice_number : String
  date : String
  vendor_name : String
  total_amount : ℚ
  currency : String
  line_items : LineItemsValue

/-- Exceptions the `try` block of `parse_invoice` distinguishes:
`json.JSONDecodeError` versus every other `Exception` (carrying `str(e)`). -/
inductive PyError where
  | jsonDecode : PyError
  | other (msg : String) : PyError
deriving Repr, DecidableEq

/-- Outcome of the OpenAI chat-completions call in
`invoice_data_extraction`: the call raised, or returned a response whose
`choices` list carries the message contents. -/
inductive VisionOutcome where
  | apiError (msg : String) : VisionOutcome
  | response (choices : List String) : VisionOutcome

/-- HTTP outcome of the endpoint: a 200 with a validated `InvoiceData`
body, or an `HTTPException`-style status plus detail string. -/
inductive HttpResponse where
  | success (data : InvoiceData) : HttpResponse
  | error (status : Nat) (detail : String) : HttpResponse
deriving Repr, DecidableEq

/-- The multipart upload: declared content type and raw body bytes. -/
structure Upload where
  contentType : String
  body : List Nat

/-- Outcomes of the external collaborators for one request: the pypdf page
texts (or a reader exception), the vision-call outcome, and the DSPy
extractor as a function of the extracted text. -/
structure Env where
  pdfPages : Except String (List (List Char))
  vision : VisionOutcome
  predict : String → Except String RawResult

/-! ### Text Extractor (`app/utils.py`) -/

/-- Python `str.strip` whitespace test, restricted to the ASCII whitespace
characters (sufficient here: both sides of every statement strip with the
same predicate, and the newline the code appends is covered). -/
def pyIsSpace (c : Char) : Bool :=
  c = ' ' || c = '\t' || c = '\n' || c = '\r' || c = '\x0b' || c = '\x0c'

/-- Drop leading whitespace (left half of Python `str.strip`). -/
def stripLeft (s : List Char) : List Char :=
  s.dropWhile pyIsSpace

/-- Drop trailing whitespace (right half of Python `str.strip`). -/
def stripRight (s : List Char) : List Char :=
  (s.reverse.dropWhile pyIsSpace).reverse

/-- Python `str.strip`: whitespace removed from both ends. -/
def pyStrip (s : List Char) : List Char :=
  stripLeft (stripRight s)

/-- `pdf_to_text` of `app/utils.py`: starting from the empty string, append
each page's extracted text followed by a newline, then strip the result.  A
page is represented by its extracted text (possibly empty, when the page has
no text layer). -/
def pdf_to_text (pages : List (List Char)) : List Char :=
  pyStrip (pages.foldl (fun acc p => acc ++ p ++ ['\n']) [])

/-- Joining a list of page texts with single newline separators — the
spec's phrasing ("each page's text joined by newlines"), for comparison
with `pdf_to_text`. -/
def joinPages : List (List Char) → List Char
  | [] => []
  | [p] => p
  | p :: q :: rest => p ++ '\n' :: joinPages (q :: rest)

/-- `invoice_data_extraction` of `app/utils.py`, as observed through the
vision-call outcome: an API error propagates, an empty `choices` list makes
`response.choices[0]` raise `IndexError`, otherwise the first choice's
message content is returned. -/
def invoice_data_extraction (v : VisionOutcome) : Except String String :=
  match v with
  | VisionOutcome.apiError m => Except.error m
  | VisionOutcome.response [] => Except.error "list index out of range"
  | VisionOutcome.response (c :: _) => Except.ok c

/-! ### Response Assembler (`app/main.py`, lines 69–86) -/

/-- Python truthiness of a JSON-shaped value (`if result.line_items:`). -/
def jsonTruthy : JsonValue → Bool
  | JsonValue.jnull => false
  | JsonValue.jbool b => b
  | JsonValue.jnum q => decide (q ≠ 0)
  | JsonValue.jstr s => decide (s ≠ "")
  | JsonValue.jarr xs => !xs.isEmpty
  | JsonValue.jobj fs => !fs.isEmpty

/-- Python truthiness of the `result.line_items` value. -/
def truthy : LineItemsValue → Bool
  | LineItemsValue.pyNone => false
  | LineItemsValue.str s => decide (s ≠ "")
  | LineItemsValue.val v => jsonTruthy v

/-- Key lookup in a decoded JSON object (a dict: keys unique, as
`json.loads` produces). -/
def lookupField (fields : List (String × JsonValue)) (key : String) : Option JsonValue :=
  (fields.find? (fun p => p.1 == key)).map (fun p => p.2)

/-- Pydantic lax coercion of a value into a `float` field: numbers pass
through; strings are delegated to the oracle `stf` (pydantic accepts numeric
strings); everything else is rejected. -/
def coerceFloat (stf : String → Option ℚ) : JsonValue → Option ℚ
  | JsonValue.jnum q => some q
  | JsonValue.jstr s => stf s
  | _ => none

/-- Pydantic validation of a value into a `str` field. -/
def coerceStr : JsonValue → Option String
  | JsonValue.jstr s => some s
  | _ => none

/-- `LineItem(**item)`: the argument must be a mapping (else `TypeError`);
pydantic then requires the four declared fields (extra keys are ignored,
pydantic's default) with coercible values, else raises `ValidationError`.
Both failures are ordinary exceptions, never `json.JSONDecodeError`. -/
def mkLineItem (stf : String → Option ℚ) : JsonValue → Except PyError LineItem
  | JsonValue.jobj fields =>
    match lookupField fields "description", lookupField fields "quantity",
          lookupField fields "unit_price", lookupField fields "total" with
    | some dv, some qv, some uv, some tv =>
      match coerceStr dv, coerceFloat stf qv, coerceFloat stf uv, coerceFloat stf tv with
      | some d, some q, some u, some t =>
          Except.ok (LineItem.mk d q u t)
      | _, _, _, _ => Except.error (PyError.other "validation error for LineItem")
    | _, _, _, _ => Except.error (PyError.other "validation error for LineItem")
  | _ => Except.error (PyError.other "argument after ** must be a mapping")

/-- Iterating `parsed_items` in the list comprehension: a JSON array yields
its elements, a string yields its one-character substrings, a dict yields
its keys, and other values raise `TypeError`. -/
def iterElems : JsonValue → Except PyError (List JsonValue)
  | JsonValue.jarr xs => Except.ok xs
  | JsonValue.jstr s => Except.ok (s.toList.map (fun c => JsonValue.jstr (String.mk [c])))
  | JsonValue.jobj fs => Except.ok (fs.map (fun p => JsonValue.jstr p.1))
  | _ => Except.error (PyError.other "object is not iterable")

/-- The list comprehension `[LineItem(**item) for item in parsed_items]`:
left to right, the first exception aborts the whole comprehension. -/
def buildItems (stf : String → Option ℚ) : List JsonValue → Except PyError (List LineItem)
  | [] => Except.ok []
  | x :: xs =>
    match mkLineItem stf x with
    | Except.error e => Except.error e
    | Except.ok itm =>
      match buildItems stf xs with
      | Except.error e => Except.error e
      | Except.ok rest => Except.ok (itm :: rest)

/-- Lines 69–86 of `app/main.py`: `line_items = []`; when
`result.line_items` is truthy, decode it with `json.loads` if it is a
string (a decode failure raises `json.JSONDecodeError`), use it directly
otherwise, and build the `LineItem` list.  `jp` is the `json.loads`
oracle (`none` meaning `JSONDecodeError`). -/
def assembleLineItems (jp : String → Option JsonValue) (stf : String → Option ℚ) :
    LineItemsValue → Except PyError (List LineItem)
  | li =>
    if truthy li then
      match li with
      | LineItemsValue.str s =>
        match jp s with
        | none => Except.error PyError.jsonDecode
        | some v =>
          match iterElems v with
          | Except.error e => Except.error e
          | Except.ok elems => buildItems stf elems
      | LineItemsValue.val v =>
        match iterElems v with
        | Except.error e => Except.error e
        | Except.ok elems => buildItems stf elems
      | LineItemsValue.pyNone => Except.ok []
    else
      Except.ok []

/-! ### Request Handler (`app/main.py`) -/

/-- `MAX_FILE_SIZE = 10 * 1024 * 1024`. -/
def MAX_FILE_SIZE : Nat := 10 * 1024 * 1024

/-- `ALLOWED_TYPES = ["image/png", "application/pdf"]`. -/
def ALLOWED_TYPES : List String := ["image/png", "application/pdf"]

/-- The body of the `try` block: pick the text-extraction path from the
declared content type (`application/pdf` → pypdf, otherwise the vision
call). -/
def extractText (env : Env) (file : Upload) : Except String String :=
  if file.contentType = "application/pdf" then
    match env.pdfPages with
    | Except.error m => Except.error m
    | Except.ok pages => Except.ok (String.mk (pdf_to_text pages))
  else
    invoice_data_extraction env.vision

/-- The rest of the `try` block: run the DSPy extractor on the text,
assemble the line items, and build the validated `InvoiceData` (the
`float(result.total_amount)` coercion is the identity on the already
numeric field). -/
def runPipeline (jp : String → Option JsonValue) (stf : String → Option ℚ)
    (env : Env) (file : Upload) : Except PyError InvoiceData :=
  match extractText env file with
  | Except.error m => Except.error (PyError.other m)
  | Except.ok text =>
    match env.predict text with
    | Except.error m => Except.error (PyError.other m)
    | Except.ok r =>
      match assembleLineItems jp stf r.line_items with
      | Except.error e => Except.error e
      | Except.ok items =>
        Except.ok (InvoiceData.mk r.invoice_number r.date r.vendor_name
          r.total_amount r.currency items)

/-- `parse_invoice` of `app/main.py`: content-type check, then empty check,
then size check, then the `try` block with its two `except` arms
(`json.JSONDecodeError` → the fixed 500 message; any other exception →
`"Failed to process invoice: " + str(e)`). -/
def parse_invoice (jp : String → Option JsonValue) (stf : String → Option ℚ)
    (env : Env) (file : Upload) : HttpResponse :=
  if file.contentType ∈ ALLOWED_TYPES then
    if file.body.length = 0 then
      HttpResponse.error 400 "Uploaded file is empty."
    else if MAX_FILE_SIZE < file.body.length then
      HttpResponse.error 400 "File size exceeds the 10 MB limit."
    else
      match runPipeline jp stf env file with
      | Except.ok d => HttpResponse.success d
      | Except.error PyError.jsonDecode =>
        HttpResponse.error 500 "Failed to parse line items from invoice."
      | Except.error (PyError.other m) =>
        HttpResponse.error 500 ("Failed to process invoice: " ++ m)
  else
    HttpResponse.error 400
      ("Invalid file type: " ++ file.contentType ++ ". Accepted: PNG and PDF.")

/-! ### Spec-side comparison definitions -/

/-- Spec-side reading of one well-formed line-item object: an object whose
`description` is a string and whose `quantity`, `unit_price` and `total`
are numbers, read off into a `LineItem`. -/
def specItemOfObj : JsonValue → Option LineItem
  | JsonValue.jobj fields =>
    match lookupField fields "description", lookupField fields "quantity",
          lookupField fields "unit_price", lookupField fields "total" with
    | some (JsonValue.jstr d), some (JsonValue.jnum q),
      some (JsonValue.jnum u), some (JsonValue.jnum t) =>
        some (LineItem.mk d q u t)
    | _, _, _, _ => none
  | _ => none

/-- Spec-side reading of a whole array of well-formed line-item objects,
in order. -/
def specItems : List JsonValue → Option (List LineItem)
  | [] => some []
  | x :: xs =>
    match specItemOfObj x, specItems xs with
    | some itm, some rest => some (itm :: rest)
    | _, _ => none

/-- Substring test on character lists (for "detail contains the word
`empty`"). -/
def listContains (needle hay : List Char) : Bool :=
  match hay with
  | [] => needle.isEmpty
  | _ :: t => needle.isPrefixOf hay || listContains needle t

/-! ### Request-level helper predicates -/

/-- The upload passes the three boundary checks. -/
def ValidUpload (file : Upload) : Prop :=
  file.contentType ∈ ALLOWED_TYPES ∧ file.body ≠ [] ∧ file.body.length ≤ MAX_FILE_SIZE

/-- The request reaches the Response Assembler with the Structured
Extractor's response `r`: the upload is valid, text extraction succeeded,
and the DSPy call returned `r`. -/
def Reaches (env : Env) (file : Upload) (r : RawResult) : Prop :=
  ValidUpload file ∧ ∃ t, extractText env file = Except.ok t ∧ env.predict t = Except.ok r

/-! ### Concrete fixtures for witnesses and counterexamples -/

/-- A fixed Structured Extractor response with the given line-items value. -/
def stubResult (li : LineItemsValue) : RawResult :=
  RawResult.mk "INV-1" "2025-07-25" "ACME GmbH" (100 : ℚ) "EUR" li

/-- Environment where the PDF reader yields one page reading "hi" and the
DSPy extractor answers with `stubResult li`. -/
def envOf (li : LineItemsValue) : Env :=
  Env.mk (Except.ok [['h', 'i']]) (VisionOutcome.response ["hi"])
    (fun _ => Except.ok (stubResult li))

/-- A `json.loads` oracle on which every string fails to decode. -/
def jpNone : String → Option JsonValue := fun _ => none

/-- A pydantic string-to-float oracle that rejects every string. -/
def stfNone : String → Option ℚ := fun _ => none

/-- A small, valid PDF upload. -/
def filePdf : Upload := Upload.mk "application/pdf" [37]

/-- A well-formed single-element line-items object. -/
def objGood : JsonValue :=
  JsonValue.jobj [("description", JsonValue.jstr "Laptop Stand"),
    ("quantity", JsonValue.jnum 2), ("unit_price", JsonValue.jnum 25),
    ("total", JsonValue.jnum 50)]

/-- A malformed line-items object: only `description` is present. -/
def objBad : JsonValue := JsonValue.jobj [("description", JsonValue.jstr "x")]

/-- A `json.loads` oracle decoding `"[ok]"` to a singleton array of
`objGood` and failing elsewhere. -/
def jpGood : String → Option JsonValue :=
  fun s => if s = "[ok]" then some (JsonValue.jarr [objGood]) else none

/-- A `json.loads` oracle decoding `"[bad]"` to a singleton array of
`objBad` and failing elsewhere. -/
def jpBad : String → Option JsonValue :=
  fun s => if s = "[bad]" then some (JsonValue.jarr [objBad]) else none

/-- The message of the exception that `invoice_data_extraction` propagates
when the vision call fails: the API error itself, or the `IndexError` from
`response.choices[0]` on an empty choices list (the content of a non-empty
first choice is never an error, so this covers every failing outcome). -/
def visionFailMsg : VisionOutcome → String
  | VisionOutcome.apiError m => m
  | VisionOutcome.response _ => "list index out of range"

/-- Environment whose vision call returns an empty `choices` list. -/
def envNoChoices : Env :=
  Env.mk (Except.ok []) (VisionOutcome.response [])
    (fun _ => Except.ok (stubResult LineItemsValue.pyNone))

/-- A small, valid PNG upload. -/
def filePng : Upload := Upload.mk "image/png" [9]

/-! ### Helper lemmas -/

theorem parse_invoice_reaches (jp : String → Option JsonValue) (stf : String → Option ℚ)
    (env : Env) (file : Upload) (r : RawResult) (h : Reaches env file r) :
    parse_invoice jp stf env file =
      match assembleLineItems jp stf r.line_items with
      | Except.ok items =>
        HttpResponse.success (InvoiceData.mk r.invoice_number r.date r.vendor_name
          r.total_amount r.currency items)
      | Except.error PyError.jsonDecode =>
        HttpResponse.error 500 "Failed to parse line items from invoice."
      | Except.error (PyError.other m) =>
        HttpResponse.error 500 ("Failed to process invoice: " ++ m) := by
  obtain ⟨⟨h1, h2, h3⟩, t, ht, hp⟩ := h
  unfold parse_invoice
  rw [if_pos h1, if_neg (fun h0 => h2 (List.length_eq_zero.mp h0)),
    if_neg (Nat.not_lt.mpr h3)]
  cases hA : assembleLineItems jp stf r.line_items with
  | ok items => simp [runPipeline, ht, hp, hA]
  | error e => cases e <;> simp [runPipeline, ht, hp, hA]

theorem assemble_str (jp : String → Option JsonValue) (stf : String → Option ℚ)
    (s : String) (hs : s ≠ "") :
    assembleLineItems jp stf (LineItemsValue.str s) =
      match jp s with
      | none => Except.error PyError.jsonDecode
      | some v =>
        match iterElems v with
        | Except.error e => Except.error e
        | Except.ok elems => buildItems stf elems := by
  unfold assembleLineItems
  rw [if_pos (by simp [truthy, hs])]

theorem mkLineItem_of_spec (stf : String → Option ℚ) (o : JsonValue) (itm : LineItem)
    (h : specItemOfObj o = some itm) : mkLineItem stf o = Except.ok itm := by
  cases o with
  | jobj fields =>
    simp only [specItemOfObj] at h
    simp only [mkLineItem]
    split at h
    next d q u t hd hq hu ht =>
      rw [hd, hq, hu, ht]
      simp [coerceStr, coerceFloat]
      exact Option.some.inj h
    next => exact absurd h (by simp)
  | jnull => exact absurd h (by simp [specItemOfObj])
  | jbool b => exact absurd h (by simp [specItemOfObj])
  | jnum q => exact absurd h (by simp [specItemOfObj])
  | jstr s => exact absurd h (by simp [specItemOfObj])
  | jarr xs => exact absurd h (by simp [specItemOfObj])

theorem buildItems_of_specItems (stf : String → Option ℚ) :
    ∀ objs items, specItems objs = some items → buildItems stf objs = Except.ok items := by
  intro objs
  induction objs with
  | nil =>
    intro items h
    unfold specItems at h
    cases h
    rfl
  | cons x xs ih =>
    intro items h
    unfold specItems at h
    split at h
    next itm rest hx hxs =>
      unfold buildItems
      rw [mkLineItem_of_spec stf x itm hx, ih rest hxs]
      cases h
      rfl
    next => exact absurd h (by simp)

theorem specItems_length :
    ∀ objs items, specItems objs = some items → items.length = objs.length := by
  intro objs
  induction objs with
  | nil =>
    intro items h
    unfold specItems at h
    cases h
    rfl
  | cons x xs ih =>
    intro items h
    unfold specItems at h
    split at h
    next itm rest hx hxs =>
      cases h
      simp [ih rest hxs]
    next => exact absurd h (by simp)

theorem mkLineItem_error_other (stf : String → Option ℚ) (o : JsonValue) (e : PyError)
    (h : mkLineItem stf o = Except.error e) : ∃ m, e = PyError.other m := by
  cases o with
  | jobj fields =>
    simp only [mkLineItem] at h
    split at h
    next =>
      split at h
      next => exact absurd h (by simp)
      next => exact ⟨_, (Except.error.inj h).symm⟩
    next => exact ⟨_, (Except.error.inj h).symm⟩
  | jnull => simp only [mkLineItem] at h; exact ⟨_, (Except.error.inj h).symm⟩
  | jbool b => simp only [mkLineItem] at h; exact ⟨_, (Except.error.inj h).symm⟩
  | jnum q => simp only [mkLineItem] at h; exact ⟨_, (Except.error.inj h).symm⟩
  | jstr s => simp only [mkLineItem] at h; exact ⟨_, (Except.error.inj h).symm⟩
  | jarr xs => simp only [mkLineItem] at h; exact ⟨_, (Except.error.inj h).symm⟩

theorem buildItems_error_of_bad (stf : String → Option ℚ) :
    ∀ objs, (∃ o ∈ objs, ∀ itm, mkLineItem stf o ≠ Except.ok itm) →
      ∃ m, buildItems stf objs = Except.error (PyError.other m) := by
  intro objs
  induction objs with
  | nil => rintro ⟨o, ho, _⟩; exact absurd ho (List.not_mem_nil o)
  | cons x xs ih =>
    rintro ⟨o, ho, hbad⟩
    cases hmk : mkLineItem stf x with
    | error e =>
      obtain ⟨m, rfl⟩ := mkLineItem_error_other stf x e hmk
      exact ⟨m, by simp [buildItems, hmk]⟩
    | ok itm =>
      have hmem : o ∈ xs := by
        rcases List.mem_cons.mp ho with rfl | hx
        · exact absurd hmk (hbad itm)
        · exact hx
      obtain ⟨m, hb⟩ := ih ⟨o, hmem, hbad⟩
      exact ⟨m, by simp [buildItems, hmk, hb]⟩

theorem generic_ne_fixed (m : String) :
    ("Failed to process invoice: " ++ m) ≠ "Failed to parse line items from invoice." := by
  intro h
  have hd : "Failed to process invoice: ".data ++ m.data =
      "Failed to parse line items from invoice.".data := by
    rw [← String.data_append]; exact congrArg String.data h
  have h11 := congrArg (fun l => l[11]?) hd
  simp only at h11
  rw [List.getElem?_append_left (by decide)] at h11
  exact absurd h11 (by decide)

theorem foldl_append_pages (l : List (List Char)) (a : List Char) :
    l.foldl (fun acc p => acc ++ p ++ ['\n']) a = a ++ (l.map (fun p => p ++ ['\n'])).flatten := by
  induction l generalizing a with
  | nil => simp
  | cons p rest ih =>
    rw [List.foldl_cons, ih]
    simp [List.append_assoc, List.singleton_append]

theorem flatten_map_eq_joinPages (l : List (List Char)) (h : l ≠ []) :
    (l.map (fun p => p ++ ['\n'])).flatten = joinPages l ++ ['\n'] := by
  induction l with
  | nil => exact absurd rfl h
  | cons p rest ih =>
    cases rest with
    | nil => simp [joinPages]
    | cons q rs =>
      have h2 := ih (by simp)
      rw [List.map_cons, List.flatten_cons, h2]
      simp [joinPages, List.append_assoc]

theorem stripRight_append_newline (x : List Char) : stripRight (x ++ ['\n']) = stripRight x := by
  unfold stripRight
  rw [List.reverse_append]
  simp [List.dropWhile_cons, pyIsSpace]

theorem pyStrip_append_newline (x : List Char) : pyStrip (x ++ ['\n']) = pyStrip x := by
  simp [pyStrip, stripRight_append_newline]

theorem assemble_str_undecodable (jp : String → Option JsonValue) (stf : String → Option ℚ)
    (s : String) (hs : s ≠ "") (hjp : jp s = none) :
    assembleLineItems jp stf (LineItemsValue.str s) = Except.error PyError.jsonDecode := by
  rw [assemble_str jp stf s hs, hjp]

theorem assemble_str_arr (jp : String → Option JsonValue) (stf : String → Option ℚ)
    (s : String) (objs : List JsonValue) (hs : s ≠ "")
    (hjp : jp s = some (JsonValue.jarr objs)) :
    assembleLineItems jp stf (LineItemsValue.str s) = buildItems stf objs := by
  rw [assemble_str jp stf s hs, hjp]
  rfl

theorem parse_reaches_ok (jp : String → Option JsonValue) (stf : String → Option ℚ)
    (env : Env) (file : Upload) (r : RawResult) (items : List LineItem)
    (hr : Reaches env file r)
    (hA : assembleLineItems jp stf r.line_items = Except.ok items) :
    parse_invoice jp stf env file =
      HttpResponse.success (InvoiceData.mk r.invoice_number r.date r.vendor_name
        r.total_amount r.currency items) := by
  rw [parse_invoice_reaches jp stf env file r hr, hA]

theorem parse_reaches_jsonDecode (jp : String → Option JsonValue) (stf : String → Option ℚ)
    (env : Env) (file : Upload) (r : RawResult) (hr : Reaches env file r)
    (hA : assembleLineItems jp stf r.line_items = Except.error PyError.jsonDecode) :
    parse_invoice jp stf env file =
      HttpResponse.error 500 "Failed to parse line items from invoice." := by
  rw [parse_invoice_reaches jp stf env file r hr, hA]

theorem parse_reaches_other (jp : String → Option JsonValue) (stf : String → Option ℚ)
    (env : Env) (file : Upload) (r : RawResult) (m : String) (hr : Reaches env file r)
    (hA : assembleLineItems jp stf r.line_items = Except.error (PyError.other m)) :
    parse_invoice jp stf env file =
      HttpResponse.error 500 ("Failed to process invoice: " ++ m) := by
  rw [parse_invoice_reaches jp stf env file r hr, hA]

theorem reaches_envOf (li : LineItemsValue) : Reaches (envOf li) filePdf (stubResult li) :=
  ⟨⟨by decide, by decide, by decide⟩, "hi", rfl, rfl⟩

theorem objBad_fails (itm : LineItem) : mkLineItem stfNone objBad ≠ Except.ok itm := by
  intro hcontra
  rw [show mkLineItem stfNone objBad =
    Except.error (PyError.other "validation error for LineItem") from rfl] at hcontra
  exact Except.noConfusion hcontra

/-! ### The claims -/

/-- Claim C1: a Structured Extractor response whose `line_items` is a JSON
string decoding to an array of N well-formed objects (string `description`,
numeric `quantity`, `unit_price`, `total`) yields an `InvoiceData` whose
`line_items` are exactly those N records, in order, numeric fields carried
over as numbers (`specItems` is the spec-side, order-preserving reading of
the array). -/
theorem claim_C1 (jp : String → Option JsonValue) (stf : String → Option ℚ)
    (env : Env) (file : Upload) (r : RawResult) (s : String)
    (objs : List JsonValue) (items : List LineItem)
    (hr : Reaches env file r) (hli : r.line_items = LineItemsValue.str s) (hs : s ≠ "")
    (hjp : jp s = some (JsonValue.jarr objs))
    (hspec : specItems objs = some items) :
    parse_invoice jp stf env file =
      HttpResponse.success (InvoiceData.mk r.invoice_number r.date r.vendor_name
        r.total_amount r.currency items) ∧
    items.length = objs.length := by
  constructor
  · exact parse_reaches_ok jp stf env file r items hr
      (by rw [hli, assemble_str_arr jp stf s objs hs hjp]
          exact buildItems_of_specItems stf objs items hspec)
  · exact specItems_length objs items hspec

/-- Claim C1 witness: a concrete one-element array round-trips into one
`LineItem`. -/
theorem claim_C1_witness :
    parse_invoice jpGood stfNone (envOf (LineItemsValue.str "[ok]")) filePdf =
      HttpResponse.success (InvoiceData.mk "INV-1" "2025-07-25" "ACME GmbH" 100 "EUR"
        [LineItem.mk "Laptop Stand" 2 25 50]) ∧
    ([LineItem.mk "Laptop Stand" 2 25 50] : List LineItem).length =
      ([objGood] : List JsonValue).length :=
  claim_C1 jpGood stfNone (envOf (LineItemsValue.str "[ok]")) filePdf
    (stubResult (LineItemsValue.str "[ok]")) "[ok]" [objGood]
    [LineItem.mk "Laptop Stand" 2 25 50]
    (reaches_envOf _) rfl (by decide) rfl rfl

/-- Claim C2, counterexample: with `line_items` the empty string (which is
not valid JSON — the decode oracle fails on every string here), the request
succeeds with an empty line-item list instead of returning the claimed 500,
because the code's truthiness test skips decoding entirely. -/
theorem claim_C2_counterexample :
    parse_invoice jpNone stfNone (envOf (LineItemsValue.str "")) filePdf =
      HttpResponse.success (InvoiceData.mk "INV-1" "2025-07-25" "ACME GmbH" 100 "EUR" []) ∧
    parse_invoice jpNone stfNone (envOf (LineItemsValue.str "")) filePdf ≠
      HttpResponse.error 500 "Failed to parse line items from invoice." :=
  ⟨by decide, by decide⟩

/-- Claim C2 as amended: for a request reaching assembly whose `line_items`
is a non-empty string that `json.loads` cannot decode, the endpoint returns
500 with exactly "Failed to parse line items from invoice.". -/
theorem claim_C2 (jp : String → Option JsonValue) (stf : String → Option ℚ)
    (env : Env) (file : Upload) (r : RawResult) (s : String)
    (hr : Reaches env file r) (hli : r.line_items = LineItemsValue.str s) (hs : s ≠ "")
    (hjp : jp s = none) :
    parse_invoice jp stf env file =
      HttpResponse.error 500 "Failed to parse line items from invoice." :=
  parse_reaches_jsonDecode jp stf env file r hr
    (by rw [hli]; exact assemble_str_undecodable jp stf s hs hjp)

/-- Claim C2 witness: a concrete undecodable non-empty string yields the
fixed 500 message. -/
theorem claim_C2_witness :
    parse_invoice jpNone stfNone (envOf (LineItemsValue.str "notjson")) filePdf =
      HttpResponse.error 500 "Failed to parse line items from invoice." :=
  claim_C2 jpNone stfNone (envOf (LineItemsValue.str "notjson")) filePdf
    (stubResult (LineItemsValue.str "notjson")) "notjson"
    (reaches_envOf _) rfl (by decide) rfl

/-- Claim C3: `pdf_to_text` (append each page's text plus a newline, then
strip) equals the page texts joined by single newline separators with
surrounding whitespace trimmed; a page with no text layer contributes an
empty entry. -/
theorem claim_C3 (pages : List (List Char)) :
    pdf_to_text pages = pyStrip (joinPages pages) := by
  cases pages with
  | nil => rfl
  | cons p rest =>
    unfold pdf_to_text
    rw [foldl_append_pages, List.nil_append,
      flatten_map_eq_joinPages (p :: rest) (by simp), pyStrip_append_newline]

/-- Claim C4, counterexample: an empty body with declared type `text/plain`
is answered 400, but the detail is the invalid-type message, which does not
contain the word "empty" — the type check runs first. -/
theorem claim_C4_counterexample :
    parse_invoice jpNone stfNone (envOf LineItemsValue.pyNone) (Upload.mk "text/plain" []) =
      HttpResponse.error 400 "Invalid file type: text/plain. Accepted: PNG and PDF." ∧
    listContains "empty".toList
      "Invalid file type: text/plain. Accepted: PNG and PDF.".toList = false :=
  ⟨by decide, by decide⟩

/-- Claim C4 as amended: an empty upload body with an accepted declared
content type (PNG or PDF) is answered 400 with detail exactly
"Uploaded file is empty." (which contains "empty"). -/
theorem claim_C4 (jp : String → Option JsonValue) (stf : String → Option ℚ)
    (env : Env) (file : Upload)
    (hct : file.contentType ∈ ALLOWED_TYPES) (hb : file.body = []) :
    parse_invoice jp stf env file = HttpResponse.error 400 "Uploaded file is empty." ∧
    listContains "empty".toList "Uploaded file is empty.".toList = true := by
  constructor
  · unfold parse_invoice
    rw [if_pos hct, hb]
    rfl
  · decide

/-- Claim C4 witness: an empty PNG upload gets the exact empty-file
message. -/
theorem claim_C4_witness :
    parse_invoice jpNone stfNone (envOf LineItemsValue.pyNone) (Upload.mk "image/png" []) =
      HttpResponse.error 400 "Uploaded file is empty." ∧
    listContains "empty".toList "Uploaded file is empty.".toList = true :=
  claim_C4 jpNone stfNone (envOf LineItemsValue.pyNone) (Upload.mk "image/png" [])
    (by decide) rfl

/-- Claim C5, counterexample: `line_items` decodes to an array whose single
object lacks the numeric fields; the request fails with the generic
"Failed to process invoice: ..." message (the pydantic `ValidationError` is
caught by the generic handler), not with the fixed decode message the claim
requires. -/
theorem claim_C5_counterexample :
    parse_invoice jpBad stfNone (envOf (LineItemsValue.str "[bad]")) filePdf =
      HttpResponse.error 500 "Failed to process invoice: validation error for LineItem" ∧
    parse_invoice jpBad stfNone (envOf (LineItemsValue.str "[bad]")) filePdf ≠
      HttpResponse.error 500 "Failed to parse line items from invoice." :=
  ⟨by decide, by decide⟩

/-- Claim C5 as amended: a non-empty `line_items` string that fails to
decode is surfaced as 500 with the fixed message; a decoded array
containing an element that fails `LineItem` validation fails the whole
request (no partial recovery) as 500 with the generic
"Failed to process invoice: ..." message, which is never the fixed one. -/
theorem claim_C5 (jp : String → Option JsonValue) (stf : String → Option ℚ)
    (env : Env) (file : Upload) (r : RawResult) (s : String)
    (hr : Reaches env file r) (hli : r.line_items = LineItemsValue.str s) (hs : s ≠ "") :
    (jp s = none →
      parse_invoice jp stf env file =
        HttpResponse.error 500 "Failed to parse line items from invoice.") ∧
    (∀ objs, jp s = some (JsonValue.jarr objs) →
      (∃ o ∈ objs, ∀ itm, mkLineItem stf o ≠ Except.ok itm) →
      ∃ m, parse_invoice jp stf env file =
          HttpResponse.error 500 ("Failed to process invoice: " ++ m) ∧
        HttpResponse.error 500 ("Failed to process invoice: " ++ m) ≠
          HttpResponse.error 500 "Failed to parse line items from invoice.") := by
  constructor
  · intro hjp
    exact parse_reaches_jsonDecode jp stf env file r hr
      (by rw [hli]; exact assemble_str_undecodable jp stf s hs hjp)
  · intro objs hjp hbad
    obtain ⟨m, hb⟩ := buildItems_error_of_bad stf objs hbad
    refine ⟨m, ?_, ?_⟩
    · exact parse_reaches_other jp stf env file r m hr
        (by rw [hli, assemble_str_arr jp stf s objs hs hjp]; exact hb)
    · intro hcontra
      exact generic_ne_fixed m (HttpResponse.error.inj hcontra).2

/-- Claim C5 witness: at the concrete malformed element the request fails
and the response is not the fixed decode message. -/
theorem claim_C5_witness :
    parse_invoice jpBad stfNone (envOf (LineItemsValue.str "[bad]")) filePdf ≠
      HttpResponse.error 500 "Failed to parse line items from invoice." := by
  obtain ⟨m, hm, hne⟩ :=
    (claim_C5 jpBad stfNone (envOf (LineItemsValue.str "[bad]")) filePdf
      (stubResult (LineItemsValue.str "[bad]")) "[bad]"
      (reaches_envOf _) rfl (by decide)).2 [objBad] rfl
      ⟨objBad, List.mem_cons_self _ _, objBad_fails⟩
  rw [hm]
  exact hne

/-- Claim C6: a declared content type that is neither PNG nor PDF is
rejected with 400 and the exact invalid-type detail, whatever the
collaborator outcomes are (the environment is universally quantified, so no
extraction or model call can influence the response). -/
theorem claim_C6 (jp : String → Option JsonValue) (stf : String → Option ℚ)
    (env : Env) (file : Upload) (h : file.contentType ∉ ALLOWED_TYPES) :
    parse_invoice jp stf env file =
      HttpResponse.error 400
        ("Invalid file type: " ++ file.contentType ++ ". Accepted: PNG and PDF.") := by
  unfold parse_invoice
  rw [if_neg h]

/-- Claim C6 witness: a `text/plain` upload is rejected with the exact
message. -/
theorem claim_C6_witness :
    parse_invoice jpNone stfNone (envOf LineItemsValue.pyNone) (Upload.mk "text/plain" [1]) =
      HttpResponse.error 400 "Invalid file type: text/plain. Accepted: PNG and PDF." :=
  claim_C6 jpNone stfNone (envOf LineItemsValue.pyNone) (Upload.mk "text/plain" [1])
    (by decide)

/-- Claim C7, counterexample: a body of 10,485,761 bytes with declared type
`text/plain` is answered with the invalid-type message, not the size
message — the type check runs first, so the claim's "for every upload"
fails. -/
theorem claim_C7_counterexample :
    parse_invoice jpNone stfNone (envOf LineItemsValue.pyNone)
        (Upload.mk "text/plain" (List.replicate (MAX_FILE_SIZE + 1) 0)) =
      HttpResponse.error 400 "Invalid file type: text/plain. Accepted: PNG and PDF." ∧
    parse_invoice jpNone stfNone (envOf LineItemsValue.pyNone)
        (Upload.mk "text/plain" (List.replicate (MAX_FILE_SIZE + 1) 0)) ≠
      HttpResponse.error 400 "File size exceeds the 10 MB limit." := by
  have h1 : parse_invoice jpNone stfNone (envOf LineItemsValue.pyNone)
      (Upload.mk "text/plain" (List.replicate (MAX_FILE_SIZE + 1) 0)) =
      HttpResponse.error 400 "Invalid file type: text/plain. Accepted: PNG and PDF." := by
    unfold parse_invoice
    rw [if_neg (by decide)]
    rfl
  refine ⟨h1, ?_⟩
  rw [h1]
  decide

/-- Claim C7 as amended: for an accepted declared content type, a body
strictly larger than 10,485,760 bytes is rejected 400 with the exact size
message, and a body of exactly 10,485,760 bytes is never rejected by the
size check. -/
theorem claim_C7 (jp : String → Option JsonValue) (stf : String → Option ℚ)
    (env : Env) (file : Upload) (hct : file.contentType ∈ ALLOWED_TYPES) :
    (MAX_FILE_SIZE < file.body.length →
      parse_invoice jp stf env file =
        HttpResponse.error 400 "File size exceeds the 10 MB limit.") ∧
    (file.body.length = MAX_FILE_SIZE →
      parse_invoice jp stf env file ≠
        HttpResponse.error 400 "File size exceeds the 10 MB limit.") := by
  constructor
  · intro hgt
    unfold parse_invoice
    rw [if_pos hct, if_neg (by omega), if_pos hgt]
  · intro heq hcontra
    unfold parse_invoice at hcontra
    rw [if_pos hct, heq, if_neg (by decide), if_neg (by omega)] at hcontra
    cases hrp : runPipeline jp stf env file with
    | ok d =>
      rw [hrp] at hcontra
      exact HttpResponse.noConfusion hcontra
    | error e =>
      cases e with
      | jsonDecode =>
        rw [hrp] at hcontra
        simp at hcontra
      | other m =>
        rw [hrp] at hcontra
        simp at hcontra

/-- Claim C7 witness: an oversized PDF upload gets the exact size
message. -/
theorem claim_C7_witness :
    parse_invoice jpNone stfNone (envOf LineItemsValue.pyNone)
        (Upload.mk "application/pdf" (List.replicate (MAX_FILE_SIZE + 1) 0)) =
      HttpResponse.error 400 "File size exceeds the 10 MB limit." :=
  (claim_C7 jpNone stfNone (envOf LineItemsValue.pyNone)
    (Upload.mk "application/pdf" (List.replicate (MAX_FILE_SIZE + 1) 0))
    (by decide)).1
    (by rw [List.length_replicate]; exact Nat.lt_succ_self MAX_FILE_SIZE)

/-- Claim C8: on the image path, a vision call that errors or returns no
choices makes the Text Extractor propagate an error (never an `ok` result,
in particular never silently empty text), and the request fails with the
generic 500 processing message. -/
theorem claim_C8 (jp : String → Option JsonValue) (stf : String → Option ℚ)
    (env : Env) (file : Upload)
    (hct : file.contentType = "image/png") (hne : file.body ≠ [])
    (hsz : file.body.length ≤ MAX_FILE_SIZE)
    (hv : (∃ m, env.vision = VisionOutcome.apiError m) ∨
      env.vision = VisionOutcome.response []) :
    invoice_data_extraction env.vision = Except.error (visionFailMsg env.vision) ∧
    parse_invoice jp stf env file =
      HttpResponse.error 500 ("Failed to process invoice: " ++ visionFailMsg env.vision) := by
  have hm0 : invoice_data_extraction env.vision =
      Except.error (visionFailMsg env.vision) := by
    rcases hv with ⟨m, hm⟩ | hm
    · rw [hm]; rfl
    · rw [hm]; rfl
  refine ⟨hm0, ?_⟩
  unfold parse_invoice
  rw [if_pos (by rw [hct]; decide),
    if_neg (fun h0 => hne (List.length_eq_zero.mp h0)), if_neg (Nat.not_lt.mpr hsz)]
  have hrp : runPipeline jp stf env file =
      Except.error (PyError.other (visionFailMsg env.vision)) := by
    unfold runPipeline extractText
    rw [if_neg (by rw [hct]; decide), hm0]
  rw [hrp]

/-- Claim C8 witness: an empty choices list on a valid PNG upload fails the
request with the propagated IndexError message. -/
theorem claim_C8_witness :
    invoice_data_extraction envNoChoices.vision =
      Except.error "list index out of range" ∧
    parse_invoice jpNone stfNone envNoChoices filePng =
      HttpResponse.error 500 "Failed to process invoice: list index out of range" :=
  claim_C8 jpNone stfNone envNoChoices filePng rfl (by decide) (by decide) (Or.inr rfl)

/-- Claim C9: the endpoint's outcome is always either a success carrying a
complete `InvoiceData` (all six fields, by construction of the record) or
an error response; and when any decoded line-item element fails validation
the request is never a success — no partial line-item recovery. -/
theorem claim_C9 (jp : String → Option JsonValue) (stf : String → Option ℚ)
    (env : Env) (file : Upload) :
    ((∃ d, parse_invoice jp stf env file = HttpResponse.success d) ∨
      (∃ c m, parse_invoice jp stf env file = HttpResponse.error c m)) ∧
    (∀ r s objs, Reaches env file r → r.line_items = LineItemsValue.str s → s ≠ "" →
      jp s = some (JsonValue.jarr objs) →
      (∃ o ∈ objs, ∀ itm, mkLineItem stf o ≠ Except.ok itm) →
      ∀ d, parse_invoice jp stf env file ≠ HttpResponse.success d) := by
  constructor
  · cases h : parse_invoice jp stf env file with
    | success d => exact Or.inl ⟨d, rfl⟩
    | error c m => exact Or.inr ⟨c, m, rfl⟩
  · intro r s objs hr hli hs hjp hbad d hcontra
    obtain ⟨m, hb⟩ := buildItems_error_of_bad stf objs hbad
    have hparse : parse_invoice jp stf env file =
        HttpResponse.error 500 ("Failed to process invoice: " ++ m) :=
      parse_reaches_other jp stf env file r m hr
        (by rw [hli, assemble_str_arr jp stf s objs hs hjp]; exact hb)
    exact HttpResponse.noConfusion (hparse.symm.trans hcontra)

/-- Claim C9 witness: at the concrete failing element the endpoint does
not return the would-be partial success. -/
theorem claim_C9_witness :
    parse_invoice jpBad stfNone (envOf (LineItemsValue.str "[bad]")) filePdf ≠
      HttpResponse.success (InvoiceData.mk "INV-1" "2025-07-25" "ACME GmbH" 100 "EUR" []) :=
  (claim_C9 jpBad stfNone (envOf (LineItemsValue.str "[bad]")) filePdf).2
    (stubResult (LineItemsValue.str "[bad]")) "[bad]" [objBad]
    (reaches_envOf _) rfl (by decide) rfl
    ⟨objBad, List.mem_cons_self _ _, objBad_fails⟩
    (InvoiceData.mk "INV-1" "2025-07-25" "ACME GmbH" 100 "EUR" [])

/-- Claim C10: a falsy `line_items` value (`None`, the empty string, or an
empty array) skips JSON decoding — the response is the same for every
decode oracle — and the request succeeds with an empty line-item list. -/
theorem claim_C10 (stf : String → Option ℚ) (env : Env) (file : Upload) (r : RawResult)
    (hr : Reaches env file r)
    (hfalsy : r.line_items = LineItemsValue.pyNone ∨
      r.line_items = LineItemsValue.str "" ∨
      r.line_items = LineItemsValue.val (JsonValue.jarr [])) :
    ∀ jp, parse_invoice jp stf env file =
      HttpResponse.success (InvoiceData.mk r.invoice_number r.date r.vendor_name
        r.total_amount r.currency []) := by
  intro jp
  rcases hfalsy with h | h | h <;>
    exact parse_reaches_ok jp stf env file r [] hr (by rw [h]; rfl)

/-- Claim C10 witness: a `None` line-items value succeeds with an empty
list under the always-failing decode oracle. -/
theorem claim_C10_witness :
    parse_invoice jpNone stfNone (envOf LineItemsValue.pyNone) filePdf =
      HttpResponse.success (InvoiceData.mk "INV-1" "2025-07-25" "ACME GmbH" 100 "EUR" []) :=
  claim_C10 stfNone (envOf LineItemsValue.pyNone) filePdf
    (stubResult LineItemsValue.pyNone) (reaches_envOf _) (Or.inl rfl) jpNone

end InvoiceParser
